import Mathlib

/-!
Verification of the recipe-chatbot backend helper (`backend/utils.py`).

The module under study keeps a fixed system prompt, resolves a model name
from the environment once, and wraps a single call to an external chat
completion provider: it prepends the system prompt when the incoming
history does not start with a system message, submits the working history,
strips the reply and appends it as an assistant message.

The embedding below is a direct translation of `get_agent_response` and
its module-level constants.  Effects are made explicit:
  - the process environment becomes a function `String → Option String`;
  - the external provider (`litellm.completion`) becomes a function from
    the submitted request to a `ProviderResult`, which either models the
    call raising an exception or returning a completion payload;
  - the single outbound call is recorded in a request trace returned
    alongside the result, so properties about how often and with which
    arguments the provider is invoked can be stated.
Failure (a raised exception, an empty `choices` list, a missing reply
content) is modelled with `Except`.
-/

namespace RecipeChatbot

/-- A chat message: a `role`/`content` pair, mirroring the Python dicts
`\x7b"role": ..., "content": ...\x7d` used throughout `backend/utils.py`. -/
structure Message where
  role : String
  content : String
deriving Repr, DecidableEq

/-- The fixed system prompt, the literal value of `SYSTEM_PROMPT` in
`backend/utils.py` (a Python triple-quoted string, hence the leading and
trailing newline). -/
def SYSTEM_PROMPT : String :=
  "\n### Role and Objective ###\n\n" ++
  "You are a friendly and creative culinary assistant with expertise across all types of cooking - from indulgent comfort foods to healthy nutrition-focused meals. You provide recipes that match what users are specifically looking for, whether that's a decadent chocolate cake or a protein-packed healthy meal.\n\n" ++
  "### Instructions ###\n\n" ++
  "Provide a recipe meeting all of the requirements from the user.\n" ++
  "- The recipe should first list all required ingredients with precise measurements for a particular serving size.\n" ++
  "- Instructions would follow describing how to make the recipe.\n" ++
  "- Before generating a recipe, be sure that what you are thinking of meets the user's needs. Think step-by-step. If unsure if your idea meets the user's needs, ask any clarifying questions to the user in a clear bulleted list and wait for their reply before proceeding to create the recipe. Only generate the recipe once you are sure.\n" ++
  "- If the user query is vague, ask clarifying questions to better understand a recipe they would be interested in.\n" ++
  "- Respect all user requirements related to cuisine specifications or dietary restrictions by ensuring no provided recipe violates any known constraints.\n" ++
  "- If a user provides ingredients in their request, ensure the recipe you provide includes some amount of these ingredients.\n" ++
  "- If a user asks for multiple recipes, instead of providing the details for each recipe, provide a bulleted list of options with a description of each, asking for user preference. Once you have confirmation, you can list all recipe(s) in the desired format.\n" ++
  "- Never suggest recipes that require extremely rare or unobtainable ingredients without providing readily available alternatives.\n" ++
  "- Never use offensive or derogatory language.\n" ++
  "- If a user asks for a recipe that is unsafe, unethical, or promotes harmful activities, politely decline and state you cannot fulfill that request, without being preachy. Unsafe recipes include anything involving non-food substances or dangerous preparation techniques.\n" ++
  "- Feel free to suggest common variations or substitutions for ingredients. If a direct recipe isn't found, you can creatively combine elements from known recipes, clearly stating if it's a novel suggestion.\n" ++
  "- Structure your results using Markdown for formatting.\n\n" ++
  "### Reasoning Steps ###\n\n" ++
  "When creating a recipe, follow this step-by-step process:\n" ++
  "1. Analyze the user's query to identify key requirements (cuisine type, dietary restrictions, available ingredients, etc.)\n" ++
  "2. Determine the core cooking method and techniques appropriate for the dish\n" ++
  "3. Select a balanced set of ingredients that work well together and meet the user's needs\n" ++
  "4. Consider appropriate cooking times and temperatures\n" ++
  "5. Organize the steps in a logical sequence that a home cook could follow\n\n" ++
  "Only after completing this thought process should you format and present the final recipe.\n\n" ++
  "### Edge Case Handling ###\n\n" ++
  "- If a user request contains contradictory elements (e.g., \"vegan beef stew\"), politely point out the contradiction and suggest alternatives that come closest to meeting their intent.\n" ++
  "- If a user asks technical questions about cooking methods or techniques, provide clear, concise explanations with practical examples.\n" ++
  "- When providing recipes, consider common household equipment. If specialized equipment is mentioned, always suggest alternative methods using standard kitchen tools.\n" ++
  "- If a user provides feedback on a recipe you've shared, acknowledge their experience, offer troubleshooting if needed, and use their feedback to inform future recommendations.\n\n" ++
  "### Tone and Personality ###\n\n" ++
  "- Maintain a warm, enthusiastic tone when discussing food and recipes.\n" ++
  "- Use vibrant, descriptive language when describing dishes without being overly flowery.\n" ++
  "- Be conversational but professional, as if you're a friendly chef sharing recipes with someone in your kitchen.\n" ++
  "- Express excitement about interesting ingredient combinations or cooking techniques.\n" ++
  "- When users share their cooking experiences or preferences, respond with encouragement and genuine interest.\n" ++
  "- Keep explanations accessible to home cooks of all skill levels, avoiding unnecessarily complex culinary terminology.\n" ++
  "- If suggesting a dish from a specific culture, be respectful and authentic in your descriptions.\n\n" ++
  "### Output Formatting ###\n\n" ++
  "- Structure your response clearly using Markdown for formatting.\n" ++
  "- Begin every recipe response with the recipe name as a Level 2 Heading (e.g., `## Amazing Blueberry Muffins`).\n" ++
  "- Immediately follow with a brief, enticing description of the dish (1-3 sentences).\n" ++
  "- Next, include a section titled `### Ingredients`. List all ingredients using a Markdown unordered list (bullet points). Include the number of servings in the title.\n" ++
  "- Following ingredients, include a section titled `### Instructions`. Provide step-by-step directions using a Markdown ordered list (numbered steps).\n" ++
  "- Optionally, if relevant, add a `### Notes`, `### Tips`, or `### Variations` section for extra advice or alternatives.\n\n" ++
  "### Example of Desired Structure ###\n\n" ++
  "## High-Protein Egg White Veggie Scramble with Cottage Cheese\n\n" ++
  "This high-protein veggie scramble is light, satisfying, and packed with flavor. Fluffy egg whites, sautéed vegetables, and creamy cottage cheese come together for a filling, muscle-friendly meal that keeps hunger at bay. Perfect for a lean, nutrient-dense start to your day.\n\n" ++
  "### Ingredients (1 serving)\n\n" ++
  "* 6 egg whites\n" ++
  "* 1 whole egg\n" ++
  "* 1 cup spinach\n" ++
  "* ½ cup diced bell pepper\n" ++
  "* ¼ cup diced onion\n" ++
  "* ½ cup low-fat cottage cheese (1%)\n" ++
  "* Salt and pepper to taste\n" ++
  "* Non-stick spray or 1 tsp olive oil\n\n" ++
  "### Instructions\n\n" ++
  "1. Spray a pan with non-stick spray or add 1 tsp olive oil and heat over medium.\n" ++
  "2. Sauté onion and bell pepper for 2-3 minutes until soft.\n" ++
  "3. Add spinach and cook until wilted.\n" ++
  "4. Add egg whites and whole egg, scramble until cooked through.\n" ++
  "5. Top with cottage cheese and serve.\n\n" ++
  "### Key Reminders ###\n\n" ++
  "Remember to:\n" ++
  "- Always match recipes precisely to user requirements\n" ++
  "- Ask clarifying questions when user requests are vague\n" ++
  "- Structure all responses using the specified Markdown format\n" ++
  "- Think step-by-step through the reasoning process before generating a recipe\n" ++
  "- Never recommend unsafe recipes or extremely rare ingredients without alternatives\n" ++
  "- Maintain a warm, conversational tone throughout interactions\n"

/-- The process environment, as seen by `os.environ.get`. -/
def Env : Type := String → Option String

/-- `MODEL_NAME = os.environ.get("MODEL_NAME", "gpt-4o-mini")`: the model
identifier, resolved from the environment with a hardcoded default. -/
def MODEL_NAME (env : Env) : String :=
  (env "MODEL_NAME").getD "gpt-4o-mini"

/-- The `message` object inside one completion choice; its `content` may be
missing or `None`, which the Python code would fail on. -/
structure ChoiceMessage where
  content : Option String
deriving Repr, DecidableEq

/-- One candidate in the provider response's `choices` list. -/
structure Choice where
  message : ChoiceMessage
deriving Repr, DecidableEq

/-- The payload returned by a successful `litellm.completion` call: a list
of choices (possibly empty, which the Python code would fail on). -/
structure Completion where
  choices : List Choice
deriving Repr, DecidableEq

/-- The arguments of one `litellm.completion` call: the model identifier
and the full message list. -/
structure CompletionRequest where
  model : String
  messages : List Message
deriving Repr, DecidableEq

/-- Outcome of the external provider call: either the call raises (network
error, timeout, quota, ...) or it returns a completion payload. -/
inductive ProviderResult where
  | raises (err : String)
  | returns (completion : Completion)
deriving Repr, DecidableEq

/-- The external completion provider, as a function from the submitted
request to its outcome. -/
def Provider : Type := CompletionRequest → ProviderResult

/-- Errors propagated out of `get_agent_response`: the provider call raised,
or its response was malformed (no choices, or missing reply content). -/
inductive ProviderError where
  | providerRaised (err : String)
  | malformedResponse
deriving Repr, DecidableEq

/-- Whitespace as recognised by Python's `str.strip()` (the characters
for which `str.isspace()` holds): the six ASCII whitespace characters, the
information separators U+001C..U+001F, next line U+0085, no-break space
U+00A0, ogham space mark U+1680, the Unicode spaces U+2000..U+200A, the
line and paragraph separators U+2028/U+2029, narrow no-break space U+202F,
medium mathematical space U+205F and ideographic space U+3000. -/
def isPySpace (c : Char) : Bool :=
  c = ' ' || c = '\t' || c = '\n' || c = '\r' || c = '\x0b' || c = '\x0c' ||
  c = '\x1c' || c = '\x1d' || c = '\x1e' || c = '\x1f' || c = '\x85' ||
  c = '\xa0' || c = '\u1680' || c = '\u2000' || c = '\u2001' ||
  c = '\u2002' || c = '\u2003' || c = '\u2004' || c = '\u2005' ||
  c = '\u2006' || c = '\u2007' || c = '\u2008' || c = '\u2009' ||
  c = '\u200a' || c = '\u2028' || c = '\u2029' || c = '\u202f' ||
  c = '\u205f' || c = '\u3000'

/-- Drop a trailing run of elements satisfying `p`. -/
def dropTrailing (p : α → Bool) (l : List α) : List α :=
  (l.reverse.dropWhile p).reverse

/-- Python's `str.strip()`: remove leading and trailing whitespace. -/
def pyStrip (s : String) : String :=
  String.mk (dropTrailing isPySpace (s.toList.dropWhile isPySpace))

/-- The guard `not messages or messages[0]["role"] != "system"` deciding
whether the system prompt must be prepended. -/
def prependNeeded (messages : List Message) : Bool :=
  match messages with
  | [] => true
  | m :: _ => m.role != "system"

/-- The working sequence `current_messages`: the system prompt is prepended
(`[...] + messages`) exactly when `prependNeeded` holds. -/
def current_messages_of (messages : List Message) : List Message :=
  if prependNeeded messages then
    { role := "system", content := SYSTEM_PROMPT } :: messages
  else
    messages

/-- The single request submitted to `litellm.completion`: the configured
model name together with the working sequence. -/
def completion_request (env : Env) (messages : List Message) : CompletionRequest :=
  { model := MODEL_NAME env, messages := current_messages_of messages }

/-- `get_agent_response`, with its effects made explicit.  The first
component is the result (the updated history, or the propagated provider
error); the second component is the trace of provider requests issued
during the call.  Mirrors `backend/utils.py` line by line: build
`current_messages`, call `litellm.completion` once, take
`completion["choices"][0]["message"]["content"].strip()` (any of those
accesses failing propagates as an error), and return
`current_messages + [assistant reply]`. -/
def get_agent_response_impl (env : Env) (provider : Provider)
    (messages : List Message) :
    Except ProviderError (List Message) × List CompletionRequest :=
  let current_messages := current_messages_of messages
  let req := completion_request env messages
  (match provider req with
   | ProviderResult.raises e => Except.error (ProviderError.providerRaised e)
   | ProviderResult.returns completion =>
     match completion.choices.head? with
     | none => Except.error ProviderError.malformedResponse
     | some choice =>
       match choice.message.content with
       | none => Except.error ProviderError.malformedResponse
       | some text =>
         Except.ok (current_messages ++
           [{ role := "assistant", content := pyStrip text }]),
   [req])

/-- The result of `get_agent_response`: the updated conversation history,
or the propagated provider error. -/
def get_agent_response (env : Env) (provider : Provider)
    (messages : List Message) : Except ProviderError (List Message) :=
  (get_agent_response_impl env provider messages).1

/-- A provider outcome the Python code cannot turn into a reply: the call
raised, the `choices` list is empty, or the first choice has no content. -/
def providerFailure : ProviderResult → Prop
  | ProviderResult.raises _ => True
  | ProviderResult.returns c =>
    match c.choices.head? with
    | none => True
    | some choice => choice.message.content = none

/-- A string with no leading and no trailing Python whitespace. -/
def noEdgeSpace (s : String) : Bool :=
  (match s.toList.head? with
   | none => true
   | some c => !isPySpace c) &&
  (match s.toList.reverse.head? with
   | none => true
   | some c => !isPySpace c)

/-- Test fixture: an empty process environment. -/
def envEmpty : Env := fun _ => none

/-- Test fixture: a provider that always answers with the reply " ok ". -/
def providerOk : Provider :=
  fun _ => ProviderResult.returns { choices := [{ message := { content := some " ok " } }] }

/-- Test fixture: a provider whose call always raises. -/
def providerRaisesBoom : Provider := fun _ => ProviderResult.raises "boom"

/-- Test fixture: a provider returning a payload with an empty choices list. -/
def providerNoChoices : Provider :=
  fun _ => ProviderResult.returns { choices := [] }

/-- Test fixture: a provider whose reply has a whitespace-only content,
including a non-breaking space and an ideographic space. -/
def providerSpaces : Provider :=
  fun _ => ProviderResult.returns
    { choices := [{ message := { content := some " \t\u00a0\u3000\n " } }] }

/-- The head of `dropWhile p l`, when present, does not satisfy `p`. -/
theorem head?_dropWhile_false (p : α → Bool) (l : List α) :
    ∀ c, (l.dropWhile p).head? = some c → p c = false := by
  induction l with
  | nil =>
    intro c h
    simp [List.dropWhile] at h
  | cons a t ih =>
    intro c h
    by_cases hp : p a
    · rw [List.dropWhile_cons_of_pos hp] at h
      exact ih c h
    · rw [List.dropWhile_cons_of_neg hp] at h
      simp at h
      subst h
      simpa using hp

/-- `dropTrailing p l` is a prefix of `l`, so a present head is `l`'s head. -/
theorem head?_dropTrailing (p : α → Bool) (l : List α) (c : α)
    (h : (dropTrailing p l).head? = some c) : l.head? = some c := by
  have hsplit : dropTrailing p l ++ (l.reverse.takeWhile p).reverse = l := by
    have htd := List.takeWhile_append_dropWhile (p := p) (l := l.reverse)
    calc dropTrailing p l ++ (l.reverse.takeWhile p).reverse
        = (l.reverse.dropWhile p).reverse ++ (l.reverse.takeWhile p).reverse := rfl
      _ = ((l.reverse.takeWhile p) ++ (l.reverse.dropWhile p)).reverse := by
            rw [List.reverse_append]
      _ = l.reverse.reverse := by rw [htd]
      _ = l := List.reverse_reverse l
  cases hd : dropTrailing p l with
  | nil =>
    rw [hd] at h
    simp at h
  | cons c0 t0 =>
    rw [hd] at h hsplit
    simp at h
    rw [← hsplit, ← h]
    rfl

/-- Reversing `dropTrailing p l` is dropping `p` from the reversed list. -/
theorem dropTrailing_reverse (p : α → Bool) (l : List α) :
    (dropTrailing p l).reverse = l.reverse.dropWhile p := by
  unfold dropTrailing
  rw [List.reverse_reverse]

/-- `pyStrip` leaves no leading or trailing whitespace. -/
theorem pyStrip_noEdgeSpace (s : String) : noEdgeSpace (pyStrip s) = true := by
  have htl : (pyStrip s).toList
      = dropTrailing isPySpace (s.toList.dropWhile isPySpace) := rfl
  unfold noEdgeSpace
  rw [htl]
  refine (Bool.and_eq_true _ _).mpr ⟨?_, ?_⟩
  · cases hr : (dropTrailing isPySpace (s.toList.dropWhile isPySpace)).head? with
    | none => rfl
    | some c =>
      have h1 := head?_dropTrailing isPySpace (s.toList.dropWhile isPySpace) c hr
      have h2 := head?_dropWhile_false isPySpace s.toList c h1
      simp [h2]
  · rw [dropTrailing_reverse]
    cases hr : ((s.toList.dropWhile isPySpace).reverse.dropWhile isPySpace).head? with
    | none => rfl
    | some c =>
      have h2 := head?_dropWhile_false isPySpace
        (s.toList.dropWhile isPySpace).reverse c hr
      simp [h2]

/-- Stripping a string made of whitespace only yields the empty string. -/
theorem pyStrip_all_space (s : String) (h : s.toList.all isPySpace = true) :
    pyStrip s = "" := by
  have h1 : s.toList.dropWhile isPySpace = [] := by
    rw [List.dropWhile_eq_nil_iff]
    intro x hx
    exact List.all_eq_true.mp h x hx
  unfold pyStrip
  rw [h1]
  rfl

/-- The working sequence always starts with a message of role "system". -/
theorem current_messages_head (messages : List Message) :
    (current_messages_of messages).head?.map Message.role = some "system" := by
  cases messages with
  | nil => rfl
  | cons m t =>
    by_cases hm : m.role = "system"
    · simp [current_messages_of, prependNeeded, hm]
    · simp [current_messages_of, prependNeeded, hm]

/-- The working sequence is never empty. -/
theorem current_messages_ne_nil (messages : List Message) :
    current_messages_of messages ≠ [] := by
  intro hnil
  have h := current_messages_head messages
  rw [hnil] at h
  simp at h

/-- When the input already starts with a system message, the working
sequence is the input itself. -/
theorem current_messages_of_system (m : Message) (rest : List Message)
    (hrole : m.role = "system") :
    current_messages_of (m :: rest) = m :: rest := by
  simp [current_messages_of, prependNeeded, hrole]

/-- Inversion: a successful run means the provider returned a payload with
a first choice carrying some content, and the result is the working
sequence with the stripped reply appended. -/
theorem get_agent_response_ok_cases (env : Env) (provider : Provider)
    (messages : List Message) (l : List Message)
    (h : get_agent_response env provider messages = Except.ok l) :
    ∃ c choice text,
      provider (completion_request env messages) = ProviderResult.returns c ∧
      c.choices.head? = some choice ∧
      choice.message.content = some text ∧
      l = current_messages_of messages ++
        [{ role := "assistant", content := pyStrip text }] := by
  simp only [get_agent_response, get_agent_response_impl] at h
  split at h
  next e heq =>
    simp at h
  next completion heq =>
    split at h
    next heq2 =>
      simp at h
    next choice heq2 =>
      split at h
      next heq3 =>
        simp at h
      next text heq3 =>
        simp at h
        exact ⟨completion, choice, text, heq, heq2, heq3, h.symm⟩

/-- C1: the working sequence submitted to the provider is: when `history`
is empty or its first element's role is not "system", the single message
(role "system", content SYSTEM_PROMPT) followed by all of `history` in
order; otherwise `history` itself unchanged.  In the first case exactly
one system message with the fixed prompt content is the new first
element. -/
theorem submitted_working_sequence (env : Env) (provider : Provider)
    (history : List Message) :
    (get_agent_response_impl env provider history).2 =
      [{ model := MODEL_NAME env,
         messages :=
           match history with
           | [] => { role := "system", content := SYSTEM_PROMPT } :: history
           | m :: _ =>
             if m.role = "system" then history
             else { role := "system", content := SYSTEM_PROMPT } :: history }] := by
  cases history with
  | nil => rfl
  | cons m t =>
    by_cases hm : m.role = "system"
    · simp [get_agent_response_impl, completion_request, current_messages_of,
        prependNeeded, hm]
    · simp [get_agent_response_impl, completion_request, current_messages_of,
        prependNeeded, hm]

/-- C2: on success the returned history is exactly one element longer than
the working sequence, and every working-sequence element appears unchanged
at its original position. -/
theorem forward_success_shape (env : Env) (provider : Provider)
    (history l : List Message)
    (h : get_agent_response env provider history = Except.ok l) :
    l.length = (current_messages_of history).length + 1 ∧
    l.take (current_messages_of history).length = current_messages_of history := by
  obtain ⟨c, choice, text, hp, hch, hct, hl⟩ :=
    get_agent_response_ok_cases env provider history l h
  subst hl
  refine ⟨by simp, ?_⟩
  simp

/-- C2 witness: concrete run on a two-message history with a system head. -/
theorem forward_success_shape_witness :
    ([{ role := "system", content := "" }, { role := "user", content := "hi" },
      { role := "assistant", content := "ok" }] : List Message).length =
      (current_messages_of [{ role := "system", content := "" },
        { role := "user", content := "hi" }]).length + 1 ∧
    ([{ role := "system", content := "" }, { role := "user", content := "hi" },
      { role := "assistant", content := "ok" }] : List Message).take
        (current_messages_of [{ role := "system", content := "" },
          { role := "user", content := "hi" }]).length =
      current_messages_of [{ role := "system", content := "" },
        { role := "user", content := "hi" }] :=
  forward_success_shape envEmpty providerOk
    [{ role := "system", content := "" }, { role := "user", content := "hi" }]
    [{ role := "system", content := "" }, { role := "user", content := "hi" },
     { role := "assistant", content := "ok" }] rfl

/-- C3: when the provider succeeds with a first choice carrying content,
the returned history ends with a message of role "assistant" whose content
is the reply stripped of leading and trailing whitespace, hence without
edge whitespace. -/
theorem forward_appends_trimmed_assistant (env : Env) (provider : Provider)
    (history : List Message) (c : Completion) (choice : Choice) (text : String)
    (hp : provider (completion_request env history) = ProviderResult.returns c)
    (hch : c.choices.head? = some choice)
    (hct : choice.message.content = some text) :
    get_agent_response env provider history =
      Except.ok (current_messages_of history ++
        [{ role := "assistant", content := pyStrip text }]) ∧
    (current_messages_of history ++
        [({ role := "assistant", content := pyStrip text } : Message)]).getLast? =
      some ({ role := "assistant", content := pyStrip text } : Message) ∧
    noEdgeSpace (pyStrip text) = true := by
  refine ⟨?_, ?_, pyStrip_noEdgeSpace text⟩
  · simp [get_agent_response, get_agent_response_impl, hp, hch, hct]
  · simp

/-- C3 witness: concrete run where the provider replies " ok ". -/
theorem forward_appends_trimmed_assistant_witness :
    get_agent_response envEmpty providerOk [] =
      Except.ok (current_messages_of [] ++
        [{ role := "assistant", content := pyStrip " ok " }]) ∧
    (current_messages_of [] ++
        [({ role := "assistant", content := pyStrip " ok " } : Message)]).getLast? =
      some ({ role := "assistant", content := pyStrip " ok " } : Message) ∧
    noEdgeSpace (pyStrip " ok ") = true :=
  forward_appends_trimmed_assistant envEmpty providerOk []
    { choices := [{ message := { content := some " ok " } }] }
    { message := { content := some " ok " } } " ok " rfl rfl rfl

/-- C4: if the provider call raises or its response is malformed (no
choices, or missing content), `get_agent_response` propagates the
corresponding error — no conversation is returned — and still performs
exactly one provider call, so there is no local retry. -/
theorem forward_provider_error (env : Env) (provider : Provider)
    (history : List Message)
    (h : providerFailure (provider (completion_request env history))) :
    get_agent_response env provider history =
      Except.error
        (match provider (completion_request env history) with
         | ProviderResult.raises e => ProviderError.providerRaised e
         | ProviderResult.returns _ => ProviderError.malformedResponse) ∧
    (get_agent_response_impl env provider history).2.length = 1 := by
  refine ⟨?_, rfl⟩
  cases hp : provider (completion_request env history) with
  | raises e =>
    simp [get_agent_response, get_agent_response_impl, hp]
  | returns c =>
    rw [hp] at h
    simp only [providerFailure] at h
    cases hch : c.choices.head? with
    | none =>
      simp [get_agent_response, get_agent_response_impl, hp, hch]
    | some choice =>
      rw [hch] at h
      simp at h
      simp [get_agent_response, get_agent_response_impl, hp, hch, h]

/-- C4 witness: concrete run where the provider call raises. -/
theorem forward_provider_error_witness :
    get_agent_response envEmpty providerRaisesBoom [] =
      Except.error
        (match providerRaisesBoom (completion_request envEmpty []) with
         | ProviderResult.raises e => ProviderError.providerRaised e
         | ProviderResult.returns _ => ProviderError.malformedResponse) ∧
    (get_agent_response_impl envEmpty providerRaisesBoom []).2.length = 1 :=
  forward_provider_error envEmpty providerRaisesBoom [] trivial

/-- C5: for a non-empty history whose first message has role "system", the
sequence submitted to the provider is the history unchanged, and on
success the returned history has the same number of system messages as the
input and is exactly one element longer. -/
theorem forward_no_duplicate_system (env : Env) (provider : Provider)
    (history l : List Message) (m : Message) (rest : List Message)
    (hhist : history = m :: rest) (hrole : m.role = "system")
    (hl : get_agent_response env provider history = Except.ok l) :
    (get_agent_response_impl env provider history).2 =
      [{ model := MODEL_NAME env, messages := history }] ∧
    l.countP (fun x => x.role == "system") =
      history.countP (fun x => x.role == "system") ∧
    l.length = history.length + 1 := by
  subst hhist
  have hcur : current_messages_of (m :: rest) = m :: rest :=
    current_messages_of_system m rest hrole
  obtain ⟨c, choice, text, hp, hch, hct, hleq⟩ :=
    get_agent_response_ok_cases env provider (m :: rest) l hl
  subst hleq
  refine ⟨?_, ?_, ?_⟩
  · simp [get_agent_response_impl, completion_request, hcur]
  · rw [hcur, List.countP_append]
    simp [List.countP_cons]
  · rw [hcur]
    simp

/-- C5 witness: concrete run on a history already led by a system
message whose content differs from the fixed prompt. -/
theorem forward_no_duplicate_system_witness :
    (get_agent_response_impl envEmpty providerOk
        [{ role := "system", content := "X" }, { role := "user", content := "hi" }]).2 =
      [{ model := MODEL_NAME envEmpty,
         messages := [{ role := "system", content := "X" },
           { role := "user", content := "hi" }] }] ∧
    ([{ role := "system", content := "X" }, { role := "user", content := "hi" },
      { role := "assistant", content := "ok" }] : List Message).countP
        (fun x => x.role == "system") =
      ([{ role := "system", content := "X" },
        { role := "user", content := "hi" }] : List Message).countP
        (fun x => x.role == "system") ∧
    ([{ role := "system", content := "X" }, { role := "user", content := "hi" },
      { role := "assistant", content := "ok" }] : List Message).length =
      ([{ role := "system", content := "X" },
        { role := "user", content := "hi" }] : List Message).length + 1 :=
  forward_no_duplicate_system envEmpty providerOk
    [{ role := "system", content := "X" }, { role := "user", content := "hi" }]
    [{ role := "system", content := "X" }, { role := "user", content := "hi" },
     { role := "assistant", content := "ok" }]
    { role := "system", content := "X" } [{ role := "user", content := "hi" }]
    rfl rfl rfl

/-- C6: the sequence submitted to the provider, and the sequence returned
on success, are non-empty and start with a message of role "system". -/
theorem forward_system_head_invariant (env : Env) (provider : Provider)
    (history l : List Message)
    (hl : get_agent_response env provider history = Except.ok l) :
    (get_agent_response_impl env provider history).2 =
      [completion_request env history] ∧
    (completion_request env history).messages ≠ [] ∧
    (completion_request env history).messages.head?.map Message.role =
      some "system" ∧
    l ≠ [] ∧
    l.head?.map Message.role = some "system" := by
  obtain ⟨c, choice, text, hp, hch, hct, hleq⟩ :=
    get_agent_response_ok_cases env provider history l hl
  subst hleq
  refine ⟨rfl, current_messages_ne_nil history, current_messages_head history,
    ?_, ?_⟩
  · simp
  · cases hc : current_messages_of history with
    | nil => exact absurd hc (current_messages_ne_nil history)
    | cons a t =>
      have hh := current_messages_head history
      rw [hc] at hh
      simp at hh ⊢
      exact hh

/-- C6 witness: concrete run on the empty history. -/
theorem forward_system_head_invariant_witness :
    (get_agent_response_impl envEmpty providerOk []).2 =
      [completion_request envEmpty []] ∧
    (completion_request envEmpty []).messages ≠ [] ∧
    (completion_request envEmpty []).messages.head?.map Message.role =
      some "system" ∧
    ([{ role := "system", content := SYSTEM_PROMPT },
      { role := "assistant", content := "ok" }] : List Message) ≠ [] ∧
    ([{ role := "system", content := SYSTEM_PROMPT },
      { role := "assistant", content := "ok" }] : List Message).head?.map
        Message.role = some "system" :=
  forward_system_head_invariant envEmpty providerOk []
    [{ role := "system", content := SYSTEM_PROMPT },
     { role := "assistant", content := "ok" }] rfl

/-- C7: the model identifier is the environment's MODEL_NAME entry with
the hardcoded default "gpt-4o-mini" when unset, and the one provider call
issued by `get_agent_response` uses exactly this identifier. -/
theorem model_name_configuration (env env2 : Env) (provider : Provider)
    (history : List Message) (h : env2 "MODEL_NAME" = none) :
    ((get_agent_response_impl env provider history).2.map
        CompletionRequest.model) = [ MODEL_NAME env] ∧
    MODEL_NAME env2 = "gpt-4o-mini" := by
  refine ⟨rfl, ?_⟩
  unfold MODEL_NAME
  rw [h]
  rfl

/-- C7 witness: a set and an unset environment, concretely. -/
theorem model_name_configuration_witness :
    ((get_agent_response_impl (fun _ => some "custom-model") providerOk []).2.map
        CompletionRequest.model) = [ MODEL_NAME (fun _ => some "custom-model")] ∧
    MODEL_NAME envEmpty = "gpt-4o-mini" :=
  model_name_configuration (fun _ => some "custom-model") envEmpty providerOk [] rfl

/-- C8: each invocation of `get_agent_response` issues exactly one
completion request to the external provider. -/
theorem forward_single_provider_call (env : Env) (provider : Provider)
    (history : List Message) :
    (get_agent_response_impl env provider history).2.length = 1 := rfl

/-- C9: the prepend check inspects only the role of the first message: for
any first message of role "system", whatever its content, the submitted
sequence is the input unchanged — the fixed prompt is neither substituted
nor added. -/
theorem prepend_checks_role_only (env : Env) (provider : Provider)
    (m : Message) (rest : List Message) (hrole : m.role = "system") :
    (get_agent_response_impl env provider (m :: rest)).2 =
      [{ model := MODEL_NAME env, messages := m :: rest }] := by
  simp [get_agent_response_impl, completion_request,
    current_messages_of_system m rest hrole]

/-- C9 witness: a leading system message with a content different from the
fixed prompt is kept as-is. -/
theorem prepend_checks_role_only_witness :
    (get_agent_response_impl envEmpty providerOk
        [{ role := "system", content := "totally custom" },
         { role := "user", content := "hi" }]).2 =
      [{ model := MODEL_NAME envEmpty,
         messages := [{ role := "system", content := "totally custom" },
           { role := "user", content := "hi" }] }] :=
  prepend_checks_role_only envEmpty providerOk
    { role := "system", content := "totally custom" }
    [{ role := "user", content := "hi" }] rfl

/-- C10: a well-formed response whose first choice's content is
whitespace-only (or empty) makes `get_agent_response` succeed and append
an assistant message with empty content. -/
theorem whitespace_reply_appends_empty (env : Env) (provider : Provider)
    (history : List Message) (c : Completion) (choice : Choice) (s : String)
    (hp : provider (completion_request env history) = ProviderResult.returns c)
    (hch : c.choices.head? = some choice)
    (hct : choice.message.content = some s)
    (hws : s.toList.all isPySpace = true) :
    get_agent_response env provider history =
      Except.ok (current_messages_of history ++
        [{ role := "assistant", content := "" }]) := by
  have hstrip := pyStrip_all_space s hws
  simp [get_agent_response, get_agent_response_impl, hp, hch, hct, hstrip]

/-- C10 witness: a reply made of spaces, a tab, a no-break space, an
ideographic space and a newline yields an empty assistant content. -/
theorem whitespace_reply_appends_empty_witness :
    get_agent_response envEmpty providerSpaces [] =
      Except.ok (current_messages_of [] ++
        [{ role := "assistant", content := "" }]) :=
  whitespace_reply_appends_empty envEmpty providerSpaces []
    { choices := [{ message := { content := some " \t\u00a0\u3000\n " } }] }
    { message := { content := some " \t\u00a0\u3000\n " } }
    " \t\u00a0\u3000\n " rfl rfl rfl rfl

end RecipeChatbot
